import Mathlib

/- Verification of the receipt field extraction and classification pipeline
implemented in src/api/analyze.py of the spendtrackr repository.

Strings are modelled as lists of Unicode codepoints (List Nat).  The Python
str methods the code uses (lower, strip, split, in, replace) are modelled on
that representation, and each concrete regular expression of the code is
hand-compiled to a deterministic matching function reproducing Python re
search semantics on it (leftmost match, alternation tried in order, greedy
quantifiers; for every pattern of the code the greedy choices are forced, as
noted at each matcher).  The processing date used by extract_date as its
default (datetime.now() in the code) is passed as an explicit parameter. -/

namespace SpendTrackr

/-- Codepoint encoding of a string. -/
def S (s : String) : List Nat := s.data.map Char.toNat

/-- Decoding back to a string (inverse of S on valid codepoints). -/
def decode (l : List Nat) : String := String.mk (l.map Char.ofNat)

/-- Python str.lower on one ASCII codepoint. -/
def lowerN (c : Nat) : Nat := if 65 ≤ c ∧ c ≤ 90 then c + 32 else c

/-- Python str.upper on one ASCII codepoint. -/
def upperN (c : Nat) : Nat := if 97 ≤ c ∧ c ≤ 122 then c - 32 else c

/-- Python str.lower. -/
def lowerL (l : List Nat) : List Nat := l.map lowerN

/-- Python str.upper. -/
def upperL (l : List Nat) : List Nat := l.map upperN

/-- ASCII decimal digit test (regex class d). -/
def isDigitN (c : Nat) : Bool := decide (48 ≤ c ∧ c ≤ 57)

/-- ASCII whitespace test (regex class s, Python str.strip default). -/
def isSpaceN (c : Nat) : Bool := c == 32 || c == 9 || c == 10 || c == 11 || c == 12 || c == 13

/-- ASCII letter test (regex class a-z under IGNORECASE). -/
def isLetterN (c : Nat) : Bool := decide ((65 ≤ c ∧ c ≤ 90) ∨ (97 ≤ c ∧ c ≤ 122))

/-- Python str.strip: remove leading and trailing whitespace. -/
def stripL (l : List Nat) : List Nat :=
  ((l.dropWhile isSpaceN).reverse.dropWhile isSpaceN).reverse

/-- Python str.replace with the apostrophe removed (codepoint 39). -/
def removeApos (l : List Nat) : List Nat := l.filter (fun c => c ≠ 39)

/-- Python substring containment (the in operator on str). -/
def substrIn (nd : List Nat) : List Nat → Bool
  | [] => nd.isEmpty
  | c :: t => nd.isPrefixOf (c :: t) || substrIn nd t

/-- Python str.split on a newline (keeps empty pieces). -/
def splitOnNl : List Nat → List (List Nat)
  | [] => [[]]
  | c :: t =>
    if c = 10 then [] :: splitOnNl t
    else
      match splitOnNl t with
      | [] => [[c]]
      | h :: r => (c :: h) :: r

/-- Helper for Python str.split with no argument. -/
def splitWsAux (acc : List Nat) : List Nat → List (List Nat)
  | [] => if acc.isEmpty then [] else [acc.reverse]
  | c :: t =>
    if isSpaceN c then
      if acc.isEmpty then splitWsAux [] t else acc.reverse :: splitWsAux [] t
    else splitWsAux (c :: acc) t

/-- Python str.split with no argument: split on whitespace runs, no empties. -/
def splitWs (l : List Nat) : List (List Nat) := splitWsAux [] l

/-- Python str.capitalize: first codepoint uppercased, the rest lowercased. -/
def capitalizeL : List Nat → List Nat
  | [] => []
  | c :: t => upperN c :: lowerL t

/-- Join words with single spaces (Python " ".join). -/
def joinSpace : List (List Nat) → List Nat
  | [] => []
  | [w] => w
  | w :: ws => w ++ 32 :: joinSpace ws

/-- Helper for natDigits: structural recursion on fuel so that the kernel
can evaluate it (division shrinks the number, so fuel equal to the number
itself never runs out). -/
def natDigitsAux : Nat → Nat → List Nat
  | 0, n => [48 + n % 10]
  | fuel + 1, n => if n < 10 then [48 + n] else natDigitsAux fuel (n / 10) ++ [48 + n % 10]

/-- Decimal digits codepoints of a number, as Python str of an int. -/
def natDigits (n : Nat) : List Nat := natDigitsAux n n

/-- Two-digit zero padding, as strftime directives m and d produce. -/
def pad2 (n : Nat) : List Nat := if n < 10 then [48, 48 + n] else natDigits n

/-- Numeric value of a digit run. -/
def digitsToNat (ds : List Nat) : Nat := ds.foldl (fun a d => a * 10 + (d - 48)) 0

def VENDOR_CATEGORIES : List (List Nat × String) := [
  (S "mcdonald", "food"),
  (S "burger king", "food"),
  (S "wendy", "food"),
  (S "taco bell", "food"),
  (S "chick-fil-a", "food"),
  (S "subway", "food"),
  (S "chipotle", "food"),
  (S "starbucks", "food"),
  (S "dunkin", "food"),
  (S "peet", "food"),
  (S "kroger", "food"),
  (S "whole foods", "food"),
  (S "trader joe", "food"),
  (S "safeway", "food"),
  (S "aldi", "food"),
  (S "publix", "food"),
  (S "albertsons", "food"),
  (S "vons", "food"),
  (S "ralphs", "food"),
  (S "food lion", "food"),
  (S "giant", "food"),
  (S "stop & shop", "food"),
  (S "wegmans", "food"),
  (S "heb", "food"),
  (S "h-e-b", "food"),
  (S "meijer", "food"),
  (S "winco", "food"),
  (S "food 4 less", "food"),
  (S "grocery outlet", "food"),
  (S "sprouts", "food"),
  (S "smiths", "food"),
  (S "frys", "food"),
  (S "harmons", "food"),
  (S "maceys", "food"),
  (S "shell", "gas"),
  (S "exxon", "gas"),
  (S "chevron", "gas"),
  (S "bp", "gas"),
  (S "mobil", "gas"),
  (S "speedway", "gas"),
  (S "maverik", "gas"),
  (S "sinclair", "gas"),
  (S "phillips", "gas"),
  (S "conoco", "gas"),
  (S "valero", "gas"),
  (S "amazon", "retail"),
  (S "best buy", "retail"),
  (S "home depot", "retail"),
  (S "lowes", "retail"),
  (S "ikea", "retail"),
  (S "bed bath", "retail"),
  (S "office depot", "retail"),
  (S "staples", "retail"),
  (S "amc", "entertainment"),
  (S "regal", "entertainment"),
  (S "cinemark", "entertainment"),
  (S "netflix", "entertainment"),
  (S "spotify", "entertainment"),
  (S "disney", "entertainment"),
  (S "hulu", "entertainment"),
  (S "xbox", "entertainment"),
  (S "playstation", "entertainment"),
  (S "steam", "entertainment"),
  (S "dave & buster", "entertainment"),
  (S "topgolf", "entertainment"),
  (S "bowling", "entertainment"),
  (S "arcade", "entertainment")
]

def KNOWN_VENDOR_NAMES : List (List Nat × String) := [
  (S "byu", "BYU"),
  (S "byu campus store", "BYU Campus Store"),
  (S "byu bookstore", "BYU Bookstore"),
  (S "byu creamery", "BYU Creamery"),
  (S "byu dining", "BYU Dining"),
  (S "mcdonalds", "McDonalds"),
  (S "mcdonald's", "McDonalds"),
  (S "burger king", "Burger King"),
  (S "wendys", "Wendys"),
  (S "wendy's", "Wendys"),
  (S "taco bell", "Taco Bell"),
  (S "chick-fil-a", "Chick-fil-A"),
  (S "chickfila", "Chick-fil-A"),
  (S "subway", "Subway"),
  (S "chipotle", "Chipotle"),
  (S "five guys", "Five Guys"),
  (S "in-n-out", "In-N-Out"),
  (S "arbys", "Arbys"),
  (S "arby's", "Arbys"),
  (S "popeyes", "Popeyes"),
  (S "kfc", "KFC"),
  (S "papa johns", "Papa Johns"),
  (S "dominos", "Dominos"),
  (S "domino's", "Dominos"),
  (S "pizza hut", "Pizza Hut"),
  (S "little caesars", "Little Caesars"),
  (S "sonic", "Sonic"),
  (S "jack in the box", "Jack in the Box"),
  (S "carls jr", "Carls Jr"),
  (S "carl's jr", "Carls Jr"),
  (S "hardees", "Hardees"),
  (S "hardee's", "Hardees"),
  (S "del taco", "Del Taco"),
  (S "panda express", "Panda Express"),
  (S "raising canes", "Raising Canes"),
  (S "raising cane's", "Raising Canes"),
  (S "wingstop", "Wingstop"),
  (S "buffalo wild wings", "Buffalo Wild Wings"),
  (S "zaxbys", "Zaxbys"),
  (S "zaxby's", "Zaxbys"),
  (S "shell", "Shell"),
  (S "exxon", "Exxon"),
  (S "chevron", "Chevron"),
  (S "bp", "BP"),
  (S "mobil", "Mobil"),
  (S "speedway", "Speedway"),
  (S "76", "76"),
  (S "phillips 66", "Phillips 66"),
  (S "conoco", "Conoco"),
  (S "marathon", "Marathon"),
  (S "valero", "Valero"),
  (S "sinclair", "Sinclair"),
  (S "circle k", "Circle K"),
  (S "7-eleven", "7-Eleven"),
  (S "7 eleven", "7-Eleven"),
  (S "maverik", "Maverik"),
  (S "target", "Target"),
  (S "walmart", "Walmart"),
  (S "costco", "Costco"),
  (S "amazon", "Amazon"),
  (S "best buy", "Best Buy"),
  (S "home depot", "Home Depot"),
  (S "lowes", "Lowes"),
  (S "lowe's", "Lowes"),
  (S "ikea", "IKEA"),
  (S "dollar tree", "Dollar Tree"),
  (S "dollar general", "Dollar General"),
  (S "family dollar", "Family Dollar"),
  (S "big lots", "Big Lots"),
  (S "tj maxx", "TJ Maxx"),
  (S "tjmaxx", "TJ Maxx"),
  (S "marshalls", "Marshalls"),
  (S "ross", "Ross"),
  (S "kohls", "Kohls"),
  (S "kohl's", "Kohls"),
  (S "jcpenney", "JCPenney"),
  (S "macys", "Macys"),
  (S "macy's", "Macys"),
  (S "nordstrom", "Nordstrom"),
  (S "sephora", "Sephora"),
  (S "ulta", "Ulta"),
  (S "bath & body works", "Bath and Body Works"),
  (S "bed bath & beyond", "Bed Bath and Beyond"),
  (S "office depot", "Office Depot"),
  (S "staples", "Staples"),
  (S "michaels", "Michaels"),
  (S "hobby lobby", "Hobby Lobby"),
  (S "joann", "Joann"),
  (S "jo-ann", "Joann"),
  (S "ace hardware", "Ace Hardware"),
  (S "autozone", "AutoZone"),
  (S "oreilly", "OReilly"),
  (S "o'reilly", "OReilly"),
  (S "advance auto", "Advance Auto"),
  (S "kroger", "Kroger"),
  (S "whole foods", "Whole Foods"),
  (S "trader joes", "Trader Joes"),
  (S "trader joe's", "Trader Joes"),
  (S "safeway", "Safeway"),
  (S "aldi", "Aldi"),
  (S "publix", "Publix"),
  (S "albertsons", "Albertsons"),
  (S "vons", "Vons"),
  (S "ralphs", "Ralphs"),
  (S "food lion", "Food Lion"),
  (S "giant", "Giant"),
  (S "stop & shop", "Stop and Shop"),
  (S "wegmans", "Wegmans"),
  (S "heb", "HEB"),
  (S "h-e-b", "HEB"),
  (S "meijer", "Meijer"),
  (S "winco", "WinCo"),
  (S "food 4 less", "Food 4 Less"),
  (S "grocery outlet", "Grocery Outlet"),
  (S "sprouts", "Sprouts"),
  (S "smiths", "Smiths"),
  (S "smith's", "Smiths"),
  (S "frys", "Frys"),
  (S "fry's", "Frys"),
  (S "harmons", "Harmons"),
  (S "maceys", "Maceys"),
  (S "starbucks", "Starbucks"),
  (S "dunkin", "Dunkin"),
  (S "dunkin donuts", "Dunkin Donuts"),
  (S "peets", "Peets"),
  (S "peet's", "Peets"),
  (S "dutch bros", "Dutch Bros"),
  (S "swig", "Swig"),
  (S "sodalicious", "Sodalicious"),
  (S "cvs", "CVS"),
  (S "walgreens", "Walgreens"),
  (S "rite aid", "Rite Aid")
]

def MIXED_RETAILERS : List (List Nat) := [
  S "target",
  S "walmart",
  S "costco",
  S "sam's club",
  S "sams club",
  S "cvs",
  S "walgreens",
  S "rite aid",
  S "dollar tree",
  S "dollar general",
  S "family dollar",
  S "7-eleven",
  S "7 eleven",
  S "circle k"
]

def LOWERCASE_WORDS : List (List Nat) := [
  S "and",
  S "the",
  S "of",
  S "at",
  S "in",
  S "on",
  S "for",
  S "to",
  S "a",
  S "an"
]

def UPPERCASE_WORDS : List (List Nat) := [
  S "byu",
  S "cvs",
  S "bp",
  S "kfc",
  S "heb",
  S "ikea",
  S "atm",
  S "usa"
]

def FOOD_VENDOR_KEYWORDS : List (List Nat) := [
  S "restaurant",
  S "cafe",
  S "café",
  S "grill",
  S "kitchen",
  S "food",
  S "bagel",
  S "pizza",
  S "burger",
  S "taco",
  S "sushi",
  S "bakery",
  S "deli",
  S "market",
  S "grocery",
  S "diner",
  S "bistro",
  S "eatery",
  S "cantina",
  S "pizzeria",
  S "steakhouse",
  S "bbq",
  S "barbecue",
  S "seafood",
  S "noodle",
  S "ramen",
  S "pho",
  S "thai",
  S "chinese",
  S "mexican",
  S "italian",
  S "indian",
  S "korean",
  S "japanese",
  S "vietnamese",
  S "mediterranean",
  S "greek",
  S "wings",
  S "chicken",
  S "sandwich",
  S "sub",
  S "wrap",
  S "salad",
  S "soup",
  S "buffet",
  S "creamery",
  S "ice cream",
  S "frozen yogurt",
  S "smoothie",
  S "juice",
  S "boba",
  S "bubble tea",
  S "tea house",
  S "donut",
  S "doughnut",
  S "pastry",
  S "dessert",
  S "breakfast",
  S "brunch",
  S "lunch",
  S "dinner",
  S "catering",
  S "food truck",
  S "el salvador",
  S "los ",
  S "la ",
  S "el ",
  S "taqueria",
  S "carniceria"
]

def KNOWN_FOOD_VENDORS : List (List Nat) := [
  S "mcdonalds",
  S "wendys",
  S "burger king",
  S "taco bell",
  S "subway",
  S "chick-fil-a",
  S "chickfila",
  S "chipotle",
  S "five guys",
  S "in-n-out",
  S "arbys",
  S "popeyes",
  S "kfc",
  S "papa johns",
  S "dominos",
  S "pizza hut",
  S "little caesars",
  S "sonic",
  S "jack in the box",
  S "carls jr",
  S "hardees",
  S "del taco",
  S "panda express",
  S "raising canes",
  S "wingstop",
  S "buffalo wild wings",
  S "zaxbys",
  S "qdoba",
  S "moes",
  S "panera",
  S "jersey mikes",
  S "jimmy johns",
  S "firehouse subs",
  S "potbelly",
  S "noodles",
  S "pei wei",
  S "pf changs",
  S "olive garden",
  S "applebees",
  S "chilis",
  S "red lobster",
  S "outback",
  S "texas roadhouse",
  S "cracker barrel",
  S "ihop",
  S "dennys",
  S "waffle house",
  S "golden corral",
  S "cici",
  S "fazolis",
  S "boba bee",
  S "costa vida",
  S "cafe rio",
  S "cafe zupas",
  S "zupas",
  S "noodles & co",
  S "byu creamery",
  S "byu dining",
  S "cougareat",
  S "cannon center",
  S "morris center",
  S "jamba",
  S "jamba juice",
  S "smoothie king",
  S "tropical smoothie",
  S "baskin robbins",
  S "cold stone",
  S "dairy queen",
  S "culvers",
  S "in n out",
  S "shake shack",
  S "smashburger",
  S "habit burger",
  S "fat burger",
  S "wienerschnitzel",
  S "weinerschnitzel",
  S "hot dog on a stick"
]

def FOOD_ITEM_KEYWORDS : List (List Nat) := [
  S "bagel",
  S "sandwich",
  S "burger",
  S "pizza",
  S "taco",
  S "burrito",
  S "quesadilla",
  S "nachos",
  S "enchilada",
  S "fajita",
  S "salad",
  S "soup",
  S "wrap",
  S "sub",
  S "hotdog",
  S "hot dog",
  S "corn dog",
  S "chicken",
  S "beef",
  S "pork",
  S "steak",
  S "fish",
  S "shrimp",
  S "salmon",
  S "wings",
  S "nuggets",
  S "tender",
  S "strip",
  S "fries",
  S "tots",
  S "onion rings",
  S "mozzarella sticks",
  S "breadsticks",
  S "pasta",
  S "spaghetti",
  S "lasagna",
  S "ravioli",
  S "noodles",
  S "rice",
  S "fried rice",
  S "egg roll",
  S "spring roll",
  S "dumpling",
  S "gyoza",
  S "wonton",
  S "sushi",
  S "sashimi",
  S "roll",
  S "teriyaki",
  S "tempura",
  S "ramen",
  S "pho",
  S "curry",
  S "tikka",
  S "masala",
  S "biryani",
  S "naan",
  S "samosa",
  S "gyro",
  S "falafel",
  S "hummus",
  S "pita",
  S "shawarma",
  S "kebab",
  S "breakfast",
  S "pancake",
  S "waffle",
  S "french toast",
  S "eggs",
  S "bacon",
  S "sausage",
  S "hash brown",
  S "hashbrown",
  S "omelette",
  S "omelet",
  S "biscuit",
  S "croissant",
  S "muffin",
  S "toast",
  S "cereal",
  S "oatmeal",
  S "yogurt",
  S "drink",
  S "beverage",
  S "soda",
  S "pop",
  S "coke",
  S "pepsi",
  S "sprite",
  S "fanta",
  S "lemonade",
  S "iced tea",
  S "sweet tea",
  S "juice",
  S "orange juice",
  S "apple juice",
  S "coffee",
  S "latte",
  S "cappuccino",
  S "espresso",
  S "mocha",
  S "americano",
  S "frappuccino",
  S "frappe",
  S "macchiato",
  S "tea",
  S "chai",
  S "matcha",
  S "smoothie",
  S "shake",
  S "milkshake",
  S "slushie",
  S "slurpee",
  S "icee",
  S "boba",
  S "bubble tea",
  S "milk tea",
  S "water",
  S "sparkling",
  S "mineral water",
  S "snack",
  S "chips",
  S "pretzel",
  S "popcorn",
  S "crackers",
  S "nuts",
  S "trail mix",
  S "candy",
  S "chocolate",
  S "cookie",
  S "brownie",
  S "cake",
  S "pie",
  S "donut",
  S "doughnut",
  S "pastry",
  S "danish",
  S "scone",
  S "cupcake",
  S "ice cream",
  S "gelato",
  S "frozen yogurt",
  S "sundae",
  S "cone",
  S "parfait",
  S "fruit",
  S "apple",
  S "banana",
  S "orange",
  S "grapes",
  S "berries",
  S "meal",
  S "combo",
  S "value meal",
  S "kids meal",
  S "happy meal",
  S "entree",
  S "appetizer",
  S "side",
  S "dessert",
  S "treat",
  S "food",
  S "eat",
  S "dine",
  S "order",
  S "takeout",
  S "take out",
  S "to go",
  S "dine in",
  S "delivery"
]

def SPECIAL_CAPS : List (List Nat × List Nat) := [
  (S "mc", S "Mc")
]
/-- Model of has_food_items: some food item keyword occurs in the lowercased
text (Python substring containment, not word matching). -/
def has_food_items_core (l : List Nat) : Bool :=
  FOOD_ITEM_KEYWORDS.any (fun k => substrIn k (lowerL l))

/-- has_food_items of the code, on a string. -/
def has_food_items (text : String) : Bool := has_food_items_core (S text)

/-- First category whose key is contained in the lowercased vendor name,
in table (insertion) order. -/
def lookupCategory (vl : List Nat) : Option String :=
  VENDOR_CATEGORIES.findSome? (fun p => if substrIn p.1 vl then some p.2 else none)

/-- Model of get_category: mixed retailers first (receipt text decides food
versus retail), then the category directory, then vendor name food keywords,
then known food vendors, then the receipt body scan, else other. -/
def get_category_core (v t : List Nat) : String :=
  let vl := lowerL v
  let tl := lowerL t
  if MIXED_RETAILERS.any (fun m => substrIn m vl) then
    if !tl.isEmpty && has_food_items_core tl then "food" else "retail"
  else
    match lookupCategory vl with
    | some c => c
    | none =>
      if FOOD_VENDOR_KEYWORDS.any (fun k => substrIn k vl) then "food"
      else if KNOWN_FOOD_VENDORS.any (fun k => substrIn k vl) then "food"
      else if !tl.isEmpty && has_food_items_core tl then "food"
      else "other"

/-- get_category of the code, on strings. -/
def get_category (vendor : String) (ocr_text : String) : String :=
  get_category_core (S vendor) (S ocr_text)

/-- Exact (dict) lookup of a normalized name in the known vendor directory. -/
def lookupExactKnown (nl : List Nat) : Option String :=
  KNOWN_VENDOR_NAMES.findSome? (fun p => if p.1 == nl then some p.2 else none)

/-- First known vendor key contained in the normalized name, in directory
(insertion) order. -/
def lookupPartialKnown (nl : List Nat) : Option String :=
  KNOWN_VENDOR_NAMES.findSome? (fun p => if substrIn p.1 nl then some p.2 else none)

/-- Smart title casing of one word (with its index in the name), as in the
title case branch of standardize_vendor_name. -/
def smartWord (i : Nat) (w : List Nat) : List Nat :=
  let wl := lowerL w
  if UPPERCASE_WORDS.contains wl then upperL w
  else
    match SPECIAL_CAPS.findSome?
        (fun p => if p.1.isPrefixOf wl && decide (p.1.length < wl.length)
                  then some (p.2 ++ capitalizeL (w.drop p.1.length)) else none) with
    | some r => r
    | none =>
      if decide (0 < i) && LOWERCASE_WORDS.contains wl then wl
      else capitalizeL w

/-- Model of standardize_vendor_name on codepoints. -/
def standardize_core (raw : List Nat) : String :=
  if raw.isEmpty then "Unknown Vendor"
  else
    let name := removeApos raw
    let nl := stripL (lowerL name)
    match lookupExactKnown nl with
    | some v => v
    | none =>
      match lookupPartialKnown nl with
      | some v => v
      | none => decode (joinSpace ((splitWs name).enum.map (fun p => smartWord p.1 p.2)))

/-- standardize_vendor_name of the code, on a string. -/
def standardize_vendor_name (raw : String) : String := standardize_core (S raw)

/-- Value of a matched amount group (digits, separator, two digits), in
cents: the code replaces a comma separator by a period and calls float,
which cannot fail on this shape; every parsed amount has exactly two
decimal digits, so the exact value in cents represents it faithfully
(equality and order of the float values coincide with those of the cent
values). -/
def amountVal (ds : List Nat) (d1 d2 : Nat) : Nat :=
  digitsToNat ds * 100 + ((d1 - 48) * 10 + (d2 - 48))

/-- Drop a run of whitespace (a greedy regex s-star; safe to take maximally
here because every following element of the patterns rejects whitespace). -/
def skipSpaces (l : List Nat) : List Nat := l.dropWhile isSpaceN

/-- Match the group d-plus, period or comma, d d at the start; the greedy
d-plus is forced since a digit can never match the separator. -/
def parseAmountGroup (l : List Nat) : Option Nat :=
  let ds := l.takeWhile isDigitN
  let r := l.dropWhile isDigitN
  if ds.isEmpty then none
  else
    match r with
    | c :: d1 :: d2 :: _ =>
      if (c == 46 || c == 44) && isDigitN d1 && isDigitN d2 then some (amountVal ds d1 d2)
      else none
    | _ => none

/-- Keywords of the first total pattern, in alternation order. -/
def KW1 : List (List Nat) :=
  [S "total", S "grand total", S "amount due", S "balance due", S "total due"]

/-- Keywords of the second total pattern, in alternation order. -/
def KW2 : List (List Nat) := [S "total", S "grand total"]

/-- Tail of the first total pattern after the keyword: s-star, optional colon
or dollar, s-star, optional dollar, s-star, then the amount group.  The
optional elements are consumed greedily when present; this is forced because
whatever follows them in the pattern also accepts the continuation. -/
def matchTail1 (l : List Nat) : Option Nat :=
  let l1 := skipSpaces l
  let l2 := match l1 with
    | c :: t => if c = 58 ∨ c = 36 then t else l1
    | [] => l1
  let l3 := skipSpaces l2
  let l4 := match l3 with
    | c :: t => if c = 36 then t else l3
    | [] => l3
  parseAmountGroup (skipSpaces l4)

/-- Tail of the second total pattern after the keyword: s-plus then the
amount group. -/
def matchTail2 (l : List Nat) : Option Nat :=
  match l with
  | c :: t => if isSpaceN c then parseAmountGroup (skipSpaces t) else none
  | [] => none

/-- First total pattern anchored at a position: keyword alternation in order,
each alternative continued through the tail (Python backtracks to the next
alternative when the tail fails). -/
def matchP1At (l : List Nat) : Option Nat :=
  KW1.findSome? (fun k => if k.isPrefixOf l then matchTail1 (l.drop k.length) else none)

/-- Second total pattern anchored at a position. -/
def matchP2At (l : List Nat) : Option Nat :=
  KW2.findSome? (fun k => if k.isPrefixOf l then matchTail2 (l.drop k.length) else none)

/-- Third total pattern anchored at a position: a dollar sign, s-star, the
amount group, then only whitespace to the end of the line. -/
def matchP3At (l : List Nat) : Option Nat :=
  match l with
  | c :: t =>
    if c = 36 then
      let l1 := skipSpaces t
      let ds := l1.takeWhile isDigitN
      let r := l1.dropWhile isDigitN
      if ds.isEmpty then none
      else
        match r with
        | s :: d1 :: d2 :: rest =>
          if ((s == 46 || s == 44) && isDigitN d1 && isDigitN d2) && rest.all isSpaceN
          then some (amountVal ds d1 d2) else none
        | _ => none
    else none
  | [] => none

/-- Leftmost search of the first total pattern (re.search position scan). -/
def searchP1 : List Nat → Option Nat
  | [] => none
  | c :: t => matchP1At (c :: t) <|> searchP1 t

/-- Leftmost search of the second total pattern. -/
def searchP2 : List Nat → Option Nat
  | [] => none
  | c :: t => matchP2At (c :: t) <|> searchP2 t

/-- Leftmost search of the third total pattern. -/
def searchP3 : List Nat → Option Nat
  | [] => none
  | c :: t => matchP3At (c :: t) <|> searchP3 t

/-- One line of the keyword scan of extract_total: the line is lowercased and
stripped, then the three patterns are tried in priority order. -/
def lineKeyword (line : List Nat) : Option Nat :=
  let ll := stripL (lowerL line)
  searchP1 ll <|> searchP2 ll <|> searchP3 ll

/-- The generic fallback amount pattern (optional dollar, s-star, amount
group) anchored at a position, also returning the text after the match. -/
def findAmountAt (l : List Nat) : Option (Nat × List Nat) :=
  let l1 := match l with
    | c :: t => if c = 36 then t else l
    | [] => l
  let l2 := skipSpaces l1
  let ds := l2.takeWhile isDigitN
  let r := l2.dropWhile isDigitN
  if ds.isEmpty then none
  else
    match r with
    | s :: d1 :: d2 :: rest =>
      if (s == 46 || s == 44) && isDigitN d1 && isDigitN d2
      then some (amountVal ds d1 d2, rest) else none
    | _ => none

/-- The re.findall scan of the fallback: leftmost, non-overlapping matches.
Every match consumes at least one codepoint, so fuel equal to the length of
the scanned text never runs out. -/
def scanAmounts : Nat → List Nat → List Nat
  | 0, _ => []
  | _ + 1, [] => []
  | fuel + 1, c :: t =>
    match findAmountAt (c :: t) with
    | some (q, rest) => q :: scanAmounts fuel rest
    | none => scanAmounts fuel t

/-- All fallback amounts of a text, in scan order. -/
def findAmounts (l : List Nat) : List Nat := scanAmounts l.length l

/-- Python max on a list (None on an empty list, as guarded in the code). -/
def listMaxQ : List Nat → Option Nat
  | [] => none
  | q :: t => some (t.foldl max q)

/-- Model of extract_total: bottom-up keyword scan over the lines, then the
maximum of all generic amounts as a fallback. -/
def extract_total_core (l : List Nat) : Option Nat :=
  match (splitOnNl l).reverse.findSome? lineKeyword with
  | some q => some q
  | none => listMaxQ (findAmounts l)

/-- extract_total of the code, on a string. -/
def extract_total (text : String) : Option Nat := extract_total_core (S text)

/-- Longest digit run at the front. -/
def digitRun (l : List Nat) : List Nat := l.takeWhile isDigitN

/-- First date pattern (one or two digits, slash or dash, one or two digits,
slash or dash, two to four digits) anchored at a position.  A digit run of
three or more at a bounded quantifier fails at this position under Python
backtracking, because the codepoint after any shorter prefix of the run is a
digit and cannot match the separator; the trailing run is taken greedily up
to four since the pattern ends there. -/
def matchD1At (l : List Nat) : Option (List Nat) :=
  let r1 := digitRun l
  if r1.isEmpty || decide (2 < r1.length) then none
  else
    match l.drop r1.length with
    | s1 :: rest1 =>
      if s1 = 47 ∨ s1 = 45 then
        let r2 := digitRun rest1
        if r2.isEmpty || decide (2 < r2.length) then none
        else
          match rest1.drop r2.length with
          | s2 :: rest2 =>
            if s2 = 47 ∨ s2 = 45 then
              let r3 := digitRun rest2
              if decide (r3.length < 2) then none
              else some (r1 ++ s1 :: r2 ++ s2 :: r3.take 4)
            else none
          | [] => none
      else none
    | [] => none

/-- Lowercased three-letter month prefixes of the second date pattern. -/
def MONTH3 : List (List Nat) :=
  [S "jan", S "feb", S "mar", S "apr", S "may", S "jun",
   S "jul", S "aug", S "sep", S "oct", S "nov", S "dec"]

/-- Second date pattern (month name, letters, optional period, whitespace,
one or two digits, optional comma, whitespace, two to four digits) anchored
at a position, case-insensitively.  The greedy letter run, the optional
period and the optional comma are forced exactly as in Python: each is
consumed when present because the element after it rejects the consumed
codepoint. -/
def matchD2Tail (rest0 : List Nat) : Option (List Nat) :=
  let letters := rest0.takeWhile isLetterN
  let rest1 := rest0.drop letters.length
  let dotRest : List Nat × List Nat :=
    match rest1 with
    | c :: t => if c = 46 then ([c], t) else ([], rest1)
    | [] => ([], rest1)
  let ws1 := dotRest.2.takeWhile isSpaceN
  if ws1.isEmpty then none
  else
    let rest3 := dotRest.2.drop ws1.length
    let day := digitRun rest3
    if day.isEmpty || decide (2 < day.length) then none
    else
      let rest4 := rest3.drop day.length
      let commaRest : List Nat × List Nat :=
        match rest4 with
        | c :: t => if c = 44 then ([c], t) else ([], rest4)
        | [] => ([], rest4)
      let ws2 := commaRest.2.takeWhile isSpaceN
      if ws2.isEmpty then none
      else
        let rest6 := commaRest.2.drop ws2.length
        let yr := digitRun rest6
        if decide (yr.length < 2) then none
        else some (letters ++ dotRest.1 ++ ws1 ++ day ++ commaRest.1 ++ ws2 ++ yr.take 4)

/-- Second date pattern anchored at a position: three codepoints matching a
month prefix case-insensitively, then the tail above. -/
def matchD2At (l : List Nat) : Option (List Nat) :=
  match l with
  | c1 :: c2 :: c3 :: rest0 =>
    if MONTH3.contains (lowerL [c1, c2, c3]) then
      (matchD2Tail rest0).map (fun r => c1 :: c2 :: c3 :: r)
    else none
  | _ => none

/-- Third date pattern (four digits, dash, two digits, dash, two digits)
anchored at a position; all counts are exact so no backtracking exists. -/
def matchD3At (l : List Nat) : Option (List Nat) :=
  match l with
  | a :: b :: c :: d :: s1 :: e :: f :: s2 :: g :: h :: _ =>
    if (((isDigitN a && isDigitN b) && (isDigitN c && isDigitN d)) && s1 == 45)
        && (((isDigitN e && isDigitN f) && s2 == 45) && (isDigitN g && isDigitN h))
    then some [a, b, c, d, s1, e, f, s2, g, h] else none
  | _ => none

/-- Leftmost search of the first date pattern. -/
def searchD1 : List Nat → Option (List Nat)
  | [] => none
  | c :: t => matchD1At (c :: t) <|> searchD1 t

/-- Leftmost search of the second date pattern. -/
def searchD2 : List Nat → Option (List Nat)
  | [] => none
  | c :: t => matchD2At (c :: t) <|> searchD2 t

/-- Leftmost search of the third date pattern. -/
def searchD3 : List Nat → Option (List Nat)
  | [] => none
  | c :: t => matchD3At (c :: t) <|> searchD3 t

/-- The matched date substring of a text: the three patterns are tried over
the whole text in priority order, as in extract_date. -/
def findDateMatch (l : List Nat) : Option (List Nat) :=
  searchD1 l <|> searchD2 l <|> searchD3 l

/-- Expect one literal codepoint. -/
def expectC (c : Nat) (l : List Nat) : Option (List Nat) :=
  match l with
  | a :: t => if a = c then some t else none
  | [] => none

/-- Expect at least one whitespace codepoint and skip the run (a space in a
strptime format matches a whitespace run). -/
def expectWs (l : List Nat) : Option (List Nat) :=
  match l with
  | c :: t => if isSpaceN c then some (t.dropWhile isSpaceN) else none
  | [] => none

/-- Two-codepoint alternatives of the strptime month directive (10 to 12 and
01 to 09), tried before the one-digit alternative as in the CPython regex. -/
def month2 (l : List Nat) : Option (Nat × List Nat) :=
  match l with
  | a :: b :: t =>
    if a = 49 ∧ (b = 48 ∨ b = 49 ∨ b = 50) then some (10 + (b - 48), t)
    else if a = 48 ∧ 49 ≤ b ∧ b ≤ 57 then some (b - 48, t)
    else none
  | _ => none

/-- One-digit alternative (1 to 9) of the month and day directives. -/
def oneDigit19 (l : List Nat) : Option (Nat × List Nat) :=
  match l with
  | a :: t => if 49 ≤ a ∧ a ≤ 57 then some (a - 48, t) else none
  | [] => none

/-- Two-codepoint alternatives of the strptime day directive (30 and 31,
10 to 29, 01 to 09), tried before the one-digit alternative. -/
def day2 (l : List Nat) : Option (Nat × List Nat) :=
  match l with
  | a :: b :: t =>
    if a = 51 ∧ (b = 48 ∨ b = 49) then some (30 + (b - 48), t)
    else if (a = 49 ∨ a = 50) ∧ isDigitN b then some ((a - 48) * 10 + (b - 48), t)
    else if a = 48 ∧ 49 ≤ b ∧ b ≤ 57 then some (b - 48, t)
    else none
  | _ => none

/-- The strptime four-digit year directive. -/
def year4 (l : List Nat) : Option (Nat × List Nat) :=
  match l with
  | a :: b :: c :: d :: t =>
    if (isDigitN a && isDigitN b) && (isDigitN c && isDigitN d)
    then some (digitsToNat [a, b, c, d], t) else none
  | _ => none

/-- The strptime two-digit year directive with the century rule (up to 68
means 2000 plus, else 1900 plus). -/
def year2 (l : List Nat) : Option (Nat × List Nat) :=
  match l with
  | a :: b :: t =>
    if isDigitN a && isDigitN b then
      let v := digitsToNat [a, b]
      some (if v ≤ 68 then 2000 + v else 1900 + v, t)
    else none
  | _ => none

/-- Lowercased full month names of the strptime B directive (no name is a
prefix of another, so at most one alternative matches at a position). -/
def MONTHS_FULL : List (List Nat × Nat) :=
  [(S "january", 1), (S "february", 2), (S "march", 3), (S "april", 4),
   (S "may", 5), (S "june", 6), (S "july", 7), (S "august", 8),
   (S "september", 9), (S "october", 10), (S "november", 11), (S "december", 12)]

/-- Abbreviated month names of the strptime b directive. -/
def MONTHS_ABBR : List (List Nat × Nat) :=
  [(S "jan", 1), (S "feb", 2), (S "mar", 3), (S "apr", 4), (S "may", 5),
   (S "jun", 6), (S "jul", 7), (S "aug", 8), (S "sep", 9), (S "oct", 10),
   (S "nov", 11), (S "dec", 12)]

/-- Parse a full month name case-insensitively. -/
def parseMonthFull (l : List Nat) : Option (Nat × List Nat) :=
  MONTHS_FULL.findSome? (fun p =>
    if p.1.isPrefixOf (lowerL (l.take p.1.length)) && decide (p.1.length ≤ l.length)
    then some (p.2, l.drop p.1.length) else none)

/-- Parse an abbreviated month name case-insensitively. -/
def parseMonthAbbr (l : List Nat) : Option (Nat × List Nat) :=
  MONTHS_ABBR.findSome? (fun p =>
    if p.1.isPrefixOf (lowerL (l.take 3)) && decide (3 ≤ l.length)
    then some (p.2, l.drop 3) else none)

/-- After the month of a numeric format: separator, day (two-codepoint
alternatives before the one-digit one), separator, year, end of string. -/
def tailDayYear (sep : Nat) (yearP : List Nat → Option (Nat × List Nat))
    (m : Nat) (l : List Nat) : Option (Nat × Nat × Nat) :=
  match expectC sep l with
  | none => none
  | some r =>
    let cont := fun (d : Nat) (r2 : List Nat) =>
      match expectC sep r2 with
      | none => none
      | some r3 =>
        match yearP r3 with
        | some (y, []) => some (y, m, d)
        | _ => none
    (match day2 r with | some (d, r2) => cont d r2 | none => none) <|>
    (match oneDigit19 r with | some (d, r2) => cont d r2 | none => none)

/-- A numeric strptime format: month, separator, day, separator, year, with
the month alternatives backtracked in regex order. -/
def fmtNumeric (sep : Nat) (yearP : List Nat → Option (Nat × List Nat))
    (l : List Nat) : Option (Nat × Nat × Nat) :=
  (match month2 l with | some (m, r) => tailDayYear sep yearP m r | none => none) <|>
  (match oneDigit19 l with | some (m, r) => tailDayYear sep yearP m r | none => none)

/-- The strptime format Y-m-d: four-digit year, dash, month, dash, day. -/
def fmtYmd (l : List Nat) : Option (Nat × Nat × Nat) :=
  match year4 l with
  | none => none
  | some (y, r) =>
    match expectC 45 r with
    | none => none
    | some r1 =>
      let contM := fun (m : Nat) (r2 : List Nat) =>
        match expectC 45 r2 with
        | none => none
        | some r3 =>
          let contD := fun (d : Nat) (r4 : List Nat) =>
            if r4.isEmpty then some (y, m, d) else none
          (match day2 r3 with | some (d, r4) => contD d r4 | none => none) <|>
          (match oneDigit19 r3 with | some (d, r4) => contD d r4 | none => none)
      (match month2 r1 with | some (m, r2) => contM m r2 | none => none) <|>
      (match oneDigit19 r1 with | some (m, r2) => contM m r2 | none => none)

/-- A textual strptime format: month name, whitespace, day, an optional
literal comma (present in two of the three formats of the code), whitespace,
four-digit year, end of string. -/
def fmtTextual (monthP : List Nat → Option (Nat × List Nat)) (comma : Bool)
    (l : List Nat) : Option (Nat × Nat × Nat) :=
  match monthP l with
  | none => none
  | some (m, r) =>
    match expectWs r with
    | none => none
    | some r1 =>
      let cont := fun (d : Nat) (r2 : List Nat) =>
        let afterComma := if comma then expectC 44 r2 else some r2
        match afterComma with
        | none => none
        | some r3 =>
          match expectWs r3 with
          | none => none
          | some r4 =>
            match year4 r4 with
            | some (y, []) => some (y, m, d)
            | _ => none
      (match day2 r1 with | some (d, r2) => cont d r2 | none => none) <|>
      (match oneDigit19 r1 with | some (d, r2) => cont d r2 | none => none)

/-- Gregorian leap year rule, as validated by datetime. -/
def isLeap (y : Nat) : Bool := y % 4 == 0 && (y % 100 != 0 || y % 400 == 0)

/-- Days in a month, as validated by datetime. -/
def daysInMonth (y m : Nat) : Nat :=
  if m = 2 then (if isLeap y then 29 else 28)
  else if m = 4 ∨ m = 6 ∨ m = 9 ∨ m = 11 then 30
  else 31

/-- The datetime constructor accepts the parsed fields (year within the
supported range and a real calendar day). -/
def validDate (y m d : Nat) : Bool :=
  ((1 ≤ y && y ≤ 9999) && (1 ≤ m && m ≤ 12)) && (1 ≤ d && d ≤ daysInMonth y m)

/-- The format list of extract_date, in order.  The two formats with a
literal comma are kept although they can never match: the code strips commas
from the candidate before parsing. -/
def DATE_FORMATS : List (List Nat → Option (Nat × Nat × Nat)) :=
  [fmtNumeric 47 year4, fmtNumeric 47 year2, fmtNumeric 45 year4, fmtNumeric 45 year2,
   fmtYmd, fmtTextual parseMonthFull true, fmtTextual parseMonthAbbr true,
   fmtTextual parseMonthAbbr false]

/-- Parse a matched date substring: commas are removed, then the first format
that parses the whole string to a valid calendar date wins. -/
def parseDateFormats (g : List Nat) : Option (Nat × Nat × Nat) :=
  let s := g.filter (fun c => c ≠ 44)
  DATE_FORMATS.findSome? (fun f =>
    match f s with
    | some (y, m, d) => if validDate y m d then some (y, m, d) else none
    | none => none)

/-- The processing date (the value datetime.now() supplies in the code),
passed explicitly to the model. -/
structure PDate where
  y : Nat
  m : Nat
  d : Nat

/-- Normalized rendering, as strftime with Y-m-d produces on the deployment
platform: the year unpadded, month and day zero-padded to two digits. -/
def renderISO (y m d : Nat) : List Nat :=
  natDigits y ++ 45 :: (pad2 m ++ 45 :: pad2 d)

/-- Model of extract_date: the first pattern match anywhere in the text,
normalized through the format list when some format parses it, returned raw
otherwise; the processing date when no pattern matches. -/
def extract_date_core (now : PDate) (l : List Nat) : String :=
  match findDateMatch l with
  | some g =>
    match parseDateFormats g with
    | some (y, m, d) => decode (renderISO y m d)
    | none => decode g
  | none => decode (renderISO now.y now.m now.d)

/-- extract_date of the code, on a string, with the processing date
explicit. -/
def extract_date (now : PDate) (text : String) : String :=
  extract_date_core now (S text)

/-- Known vendor directory check of one header line in extract_vendor: the
line is stripped, lowercased and has apostrophes removed, then every
directory key (apostrophes removed) is tested as a substring in insertion
order; blank lines are skipped. -/
def lineKnown (line : List Nat) : Option String :=
  let lc := stripL line
  if lc.isEmpty then none
  else
    let ln := removeApos (lowerL lc)
    KNOWN_VENDOR_NAMES.findSome? (fun p =>
      if substrIn (removeApos p.1) ln then some p.2 else none)

/-- Category directory check of one header line in extract_vendor: on a hit
the stripped original line, truncated to 50 codepoints, is standardized. -/
def lineCat (line : List Nat) : Option String :=
  let lc := stripL line
  if lc.isEmpty then none
  else
    let ln := removeApos (lowerL lc)
    VENDOR_CATEGORIES.findSome? (fun p =>
      if substrIn p.1 ln then some (standardize_core (lc.take 50)) else none)

/-- Both checks of one header line, known vendor directory first, as the
per-line body of the first loop of extract_vendor. -/
def lineResult (line : List Nat) : Option String :=
  lineKnown line <|> lineCat line

/-- Junk character class of the fallback filter (digits, whitespace, dash,
slash, period, dollar). -/
def isJunkN (c : Nat) : Bool :=
  isDigitN c || isSpaceN c || (c == 45 || c == 47 || c == 46 || c == 36)

/-- Fallback test of one line: non-blank, longer than three codepoints, not
made of junk characters only; on success the stripped line truncated to 50
codepoints is standardized. -/
def fallbackLine (line : List Nat) : Option String :=
  let lc := stripL line
  if (!lc.isEmpty && decide (3 < lc.length)) && !lc.all isJunkN
  then some (standardize_core (lc.take 50)) else none

/-- Model of extract_vendor: directory checks over the first 10 lines, then
the fallback over the first 5 lines, else the sentinel. -/
def extract_vendor_core (l : List Nat) : String :=
  let lines := splitOnNl l
  match (lines.take 10).findSome? lineResult with
  | some v => v
  | none =>
    match (lines.take 5).findSome? fallbackLine with
    | some v => v
    | none => "Unknown Vendor"

/-- extract_vendor of the code, on a string. -/
def extract_vendor (text : String) : String := extract_vendor_core (S text)

/-- Shape of a normalized date string as the success path of extract_date
produces it: a digit run for the year, a dash, two digits, a dash, two
digits, nothing else. -/
def isNormalizedDate (l : List Nat) : Bool :=
  let y := l.takeWhile isDigitN
  (!y.isEmpty) &&
    (match l.drop y.length with
     | [a, b, c, d, e, f] =>
       ((a == 45 && isDigitN b) && isDigitN c) && ((d == 45 && isDigitN e) && isDigitN f)
     | _ => false)

/-- A normalized name matches the known vendor directory exactly or as a
substring (the two directory tests of standardize_vendor_name). -/
def matchesKnown (nl : List Nat) : Bool :=
  (lookupExactKnown nl).isSome || (lookupPartialKnown nl).isSome

theorem lowerN_idem (c : Nat) : lowerN (lowerN c) = lowerN c := by
  unfold lowerN
  by_cases h : 65 ≤ c ∧ c ≤ 90
  · simp only [if_pos h]
    rw [if_neg (by omega)]
  · simp only [if_neg h]

theorem lowerL_idem (l : List Nat) : lowerL (lowerL l) = lowerL l := by
  induction l with
  | nil => rfl
  | cons c t ih =>
    simp only [lowerL, List.map_cons] at ih ⊢
    rw [lowerN_idem]
    exact congrArg _ ih

theorem substrIn_iff {a b : List Nat} : substrIn a b = true ↔ a <:+: b := by
  induction b with
  | nil =>
    simp [substrIn, List.isEmpty_iff]
  | cons c t ih =>
    simp [substrIn, ih, List.infix_cons_iff]

theorem substrIn_trans {a b c : List Nat} (h1 : substrIn a b = true)
    (h2 : substrIn b c = true) : substrIn a c = true := by
  rw [substrIn_iff] at h1 h2 ⊢
  exact h1.trans h2

theorem substrIn_ne_nil {a b : List Nat} (h : substrIn a b = true) (ha : a ≠ []) :
    b ≠ [] := by
  rw [substrIn_iff] at h
  intro hb
  subst hb
  exact ha (List.eq_nil_of_length_eq_zero (Nat.le_zero.mp h.length_le))

theorem foldl_max_le : ∀ (l : List Nat) (q a : Nat), a ∈ q :: l → a ≤ l.foldl max q := by
  intro l
  induction l with
  | nil =>
    intro q a h
    simp only [List.mem_singleton] at h
    simp [h]
  | cons x t ih =>
    intro q a h
    simp only [List.foldl_cons]
    have hm : max q x ≤ t.foldl max (max q x) :=
      ih (max q x) (max q x) (List.mem_cons_self _ _)
    rcases List.mem_cons.mp h with h1 | h2
    · rw [h1]
      exact le_trans (le_max_left q x) hm
    · rcases List.mem_cons.mp h2 with h3 | h4
      · rw [h3]
        exact le_trans (le_max_right q x) hm
      · exact ih (max q x) a (List.mem_cons_of_mem _ h4)

theorem foldl_max_mem : ∀ (l : List Nat) (q : Nat), l.foldl max q ∈ q :: l := by
  intro l
  induction l with
  | nil =>
    intro q
    simp
  | cons x t ih =>
    intro q
    simp only [List.foldl_cons]
    rcases List.mem_cons.mp (ih (max q x)) with h1 | h2
    · rw [h1]
      rcases max_choice q x with hq | hx
      · rw [hq]
        exact List.mem_cons_self _ _
      · rw [hx]
        exact List.mem_cons_of_mem _ (List.mem_cons_self _ _)
    · exact List.mem_cons_of_mem _ (List.mem_cons_of_mem _ h2)

set_option maxRecDepth 100000

theorem food_keywords_ne_nil : ∀ k ∈ FOOD_ITEM_KEYWORDS, k ≠ [] := by decide

/-- C10: has_food_items returns true exactly when some food item keyword
occurs as a contiguous substring of the lowercased text, even inside a
larger word; consequently every mixed retailer receipt whose text contains
the word great (which contains the keyword eat) or subtotal (which contains
the keyword sub) is classified food by the category classifier. -/
theorem c10_food_items_substring :
    (∀ t : String, has_food_items t = true ↔
      ∃ k ∈ FOOD_ITEM_KEYWORDS, substrIn k (lowerL (S t)) = true) ∧
    (∀ v t : String,
      MIXED_RETAILERS.any (fun m => substrIn m (lowerL (S v))) = true →
      substrIn (S "great") (lowerL (S t)) = true ∨
        substrIn (S "subtotal") (lowerL (S t)) = true →
      get_category v t = "food") := by
  constructor
  · intro t
    simp [has_food_items, has_food_items_core, List.any_eq_true]
  · intro v t hm hsub
    have heat : ∃ k ∈ FOOD_ITEM_KEYWORDS, substrIn k (lowerL (S t)) = true := by
      rcases hsub with h | h
      · exact ⟨S "eat", by decide, substrIn_trans (by decide) h⟩
      · exact ⟨S "sub", by decide, substrIn_trans (by decide) h⟩
    have hcore : has_food_items_core (lowerL (S t)) = true := by
      unfold has_food_items_core
      rw [lowerL_idem]
      exact List.any_eq_true.mpr heat
    have hne : (lowerL (S t)).isEmpty = false := by
      rcases heat with ⟨k, hk, hsk⟩
      have h1 : lowerL (S t) ≠ [] := substrIn_ne_nil hsk (food_keywords_ne_nil k hk)
      simp [List.isEmpty_iff, h1]
    simp [get_category, get_category_core, hm, hcore, hne]

theorem c10_food_items_substring_witness :
    MIXED_RETAILERS.any (fun m => substrIn m (lowerL (S "Walmart"))) = true ∧
    get_category "Walmart" "Have a GREAT day" = "food" :=
  ⟨by decide,
   c10_food_items_substring.2 "Walmart" "Have a GREAT day" (by decide) (Or.inl (by decide))⟩

/-- C1: for every vendor whose lowercased name contains a mixed retailer
entry, get_category returns food when the receipt text contains a food item
keyword and retail otherwise, regardless of every other rule (the mixed
retailer branch is the first test of the function). -/
theorem c1_mixed_retailer_override (v t : String)
    (hm : MIXED_RETAILERS.any (fun m => substrIn m (lowerL (S v))) = true) :
    get_category v t =
      if FOOD_ITEM_KEYWORDS.any (fun k => substrIn k (lowerL (S t))) then "food"
      else "retail" := by
  cases hfood : FOOD_ITEM_KEYWORDS.any (fun k => substrIn k (lowerL (S t))) with
  | true =>
    obtain ⟨k, hk, hsk⟩ := List.any_eq_true.mp hfood
    have hcore : has_food_items_core (lowerL (S t)) = true := by
      unfold has_food_items_core
      rw [lowerL_idem]
      exact List.any_eq_true.mpr ⟨k, hk, hsk⟩
    have hne : (lowerL (S t)).isEmpty = false := by
      have h1 : lowerL (S t) ≠ [] := substrIn_ne_nil hsk (food_keywords_ne_nil k hk)
      simp [List.isEmpty_iff, h1]
    simp [get_category, get_category_core, hm, hcore, hne]
  | false =>
    have hcore : has_food_items_core (lowerL (S t)) = false := by
      unfold has_food_items_core
      rw [lowerL_idem]
      exact hfood
    simp [get_category, get_category_core, hm, hcore]

theorem c1_mixed_retailer_override_witness :
    MIXED_RETAILERS.any (fun m => substrIn m (lowerL (S "Target Cafe"))) = true ∧
    get_category "Target Cafe" "bought a lamp" = "retail" ∧
    get_category "Target" "bought bagel and coffee" = "food" := by
  refine ⟨by decide, ?_, ?_⟩
  · rw [c1_mixed_retailer_override "Target Cafe" "bought a lamp" (by decide)]
    decide
  · rw [c1_mixed_retailer_override "Target" "bought bagel and coffee" (by decide)]
    decide

theorem vendor_categories_closed :
    ∀ p ∈ VENDOR_CATEGORIES,
      p.2 ∈ (["food", "gas", "retail", "entertainment", "other"] : List String) := by
  decide

/-- C2: get_category always returns one tag of the closed set food, gas,
retail, entertainment, other, and returns the default tag other when no
rule applies. -/
theorem c2_closed_category_set :
    (∀ v t : String,
      get_category v t ∈ (["food", "gas", "retail", "entertainment", "other"] : List String)) ∧
    (∀ v t : String,
      MIXED_RETAILERS.any (fun m => substrIn m (lowerL (S v))) = false →
      lookupCategory (lowerL (S v)) = none →
      FOOD_VENDOR_KEYWORDS.any (fun k => substrIn k (lowerL (S v))) = false →
      KNOWN_FOOD_VENDORS.any (fun k => substrIn k (lowerL (S v))) = false →
      (!(lowerL (S t)).isEmpty && has_food_items_core (lowerL (S t))) = false →
      get_category v t = "other") := by
  constructor
  · intro v t
    simp only [get_category, get_category_core]
    by_cases hm : (MIXED_RETAILERS.any fun m => substrIn m (lowerL (S v))) = true
    · rw [if_pos hm]
      by_cases hf : (!(lowerL (S t)).isEmpty && has_food_items_core (lowerL (S t))) = true
      · rw [if_pos hf]
        decide
      · rw [if_neg hf]
        decide
    · rw [if_neg hm]
      rcases hcat : lookupCategory (lowerL (S v)) with _ | c
      · by_cases h1 : (FOOD_VENDOR_KEYWORDS.any fun k => substrIn k (lowerL (S v))) = true
        · rw [if_pos h1]
          decide
        · rw [if_neg h1]
          by_cases h2 : (KNOWN_FOOD_VENDORS.any fun k => substrIn k (lowerL (S v))) = true
          · rw [if_pos h2]
            decide
          · rw [if_neg h2]
            by_cases h3 : (!(lowerL (S t)).isEmpty && has_food_items_core (lowerL (S t))) = true
            · rw [if_pos h3]
              decide
            · rw [if_neg h3]
              decide
      · obtain ⟨p, hp, hpc⟩ := List.exists_of_findSome?_eq_some hcat
        show c ∈ _
        by_cases hs : substrIn p.1 (lowerL (S v)) = true
        · rw [if_pos hs] at hpc
          injection hpc with hpc2
          rw [← hpc2]
          exact vendor_categories_closed p hp
        · rw [if_neg hs] at hpc
          cases hpc
  · intro v t h1 h2 h3 h4 h5
    simp [get_category, get_category_core, h1, h2, h3, h4, h5]

theorem c2_closed_category_set_witness :
    lookupCategory (lowerL (S "zzqx")) = none ∧ get_category "zzqx" "" = "other" :=
  ⟨by decide,
   c2_closed_category_set.2 "zzqx" "" (by decide) (by decide) (by decide) (by decide)
     (by decide)⟩

theorem known_values_fixed :
    ∀ v ∈ KNOWN_VENDOR_NAMES.map Prod.snd, standardize_vendor_name v = v := by
  decide

theorem standardize_matched_mem (x : String)
    (h : matchesKnown (stripL (lowerL (removeApos (S x)))) = true) :
    standardize_vendor_name x ∈ KNOWN_VENDOR_NAMES.map Prod.snd := by
  have hne : (S x).isEmpty = false := by
    cases he : (S x).isEmpty
    · rfl
    · exfalso
      have hxnil : S x = [] := List.isEmpty_iff.mp he
      rw [hxnil] at h
      exact absurd h (by decide)
  simp only [standardize_vendor_name, standardize_core, hne, Bool.false_eq_true, if_false]
  rcases hex : lookupExactKnown (stripL (lowerL (removeApos (S x)))) with _ | v
  · rcases hpar : lookupPartialKnown (stripL (lowerL (removeApos (S x)))) with _ | w
    · exfalso
      unfold matchesKnown at h
      rw [hex, hpar] at h
      simp at h
    · obtain ⟨p, hp, hc⟩ := List.exists_of_findSome?_eq_some hpar
      show w ∈ _
      by_cases hb : substrIn p.1 (stripL (lowerL (removeApos (S x)))) = true
      · rw [if_pos hb] at hc
        injection hc with hc2
        rw [← hc2]
        exact List.mem_map_of_mem _ hp
      · rw [if_neg hb] at hc
        cases hc
  · obtain ⟨p, hp, hc⟩ := List.exists_of_findSome?_eq_some hex
    show v ∈ _
    by_cases hb : (p.1 == stripL (lowerL (removeApos (S x)))) = true
    · rw [if_pos hb] at hc
      injection hc with hc2
      rw [← hc2]
      exact List.mem_map_of_mem _ hp
    · rw [if_neg hb] at hc
      cases hc

/-- C8: standardize_vendor_name is idempotent on every string that matches
the known vendor directory exactly or as a substring, because on such input
it returns a directory display value and every display value standardizes
to itself. -/
theorem c8_standardize_idempotent (x : String)
    (h : matchesKnown (stripL (lowerL (removeApos (S x)))) = true) :
    standardize_vendor_name (standardize_vendor_name x) = standardize_vendor_name x :=
  known_values_fixed (standardize_vendor_name x) (standardize_matched_mem x h)

theorem c8_standardize_idempotent_witness :
    matchesKnown (stripL (lowerL (removeApos (S "mcdonald's")))) = true ∧
    standardize_vendor_name (standardize_vendor_name "mcdonald's") =
      standardize_vendor_name "mcdonald's" :=
  ⟨by decide, c8_standardize_idempotent "mcdonald's" (by decide)⟩

theorem decode_ne_empty {l : List Nat} (h : l ≠ []) : decode l ≠ "" := by
  unfold decode
  intro he
  have h2 : (String.mk (l.map Char.ofNat)).data = String.data "" := congrArg _ he
  simp at h2
  exact h h2

theorem renderISO_ne_nil (y m d : Nat) : renderISO y m d ≠ [] := by
  simp [renderISO]

theorem matchD1At_ne_nil {l g : List Nat} (h : matchD1At l = some g) : g ≠ [] := by
  simp only [matchD1At] at h
  repeat' split at h
  all_goals first
    | exact Option.noConfusion h
    | (injection h with h2; subst h2; simp)

theorem matchD2At_ne_nil {l g : List Nat} (h : matchD2At l = some g) : g ≠ [] := by
  match l with
  | [] => exact Option.noConfusion h
  | [c1] => exact Option.noConfusion h
  | [c1, c2] => exact Option.noConfusion h
  | c1 :: c2 :: c3 :: rest0 =>
    simp only [matchD2At] at h
    split at h
    · rcases ht : matchD2Tail rest0 with _ | r
      · rw [ht] at h
        exact Option.noConfusion h
      · rw [ht] at h
        injection h with h2
        rw [← h2]
        simp
    · exact Option.noConfusion h

theorem matchD3At_ne_nil {l g : List Nat} (h : matchD3At l = some g) : g ≠ [] := by
  simp only [matchD3At] at h
  repeat' split at h
  all_goals first
    | exact Option.noConfusion h
    | (injection h with h2; subst h2; simp)

theorem searchD1_ne_nil {l g : List Nat} (h : searchD1 l = some g) : g ≠ [] := by
  induction l with
  | nil => simp [searchD1] at h
  | cons c t ih =>
    simp only [searchD1] at h
    rcases ho : matchD1At (c :: t) with _ | v
    · rw [ho] at h
      simp at h
      exact ih h
    · rw [ho] at h
      simp at h
      rw [← h]
      exact matchD1At_ne_nil ho

theorem searchD2_ne_nil {l g : List Nat} (h : searchD2 l = some g) : g ≠ [] := by
  induction l with
  | nil => simp [searchD2] at h
  | cons c t ih =>
    simp only [searchD2] at h
    rcases ho : matchD2At (c :: t) with _ | v
    · rw [ho] at h
      simp at h
      exact ih h
    · rw [ho] at h
      simp at h
      rw [← h]
      exact matchD2At_ne_nil ho

theorem searchD3_ne_nil {l g : List Nat} (h : searchD3 l = some g) : g ≠ [] := by
  induction l with
  | nil => simp [searchD3] at h
  | cons c t ih =>
    simp only [searchD3] at h
    rcases ho : matchD3At (c :: t) with _ | v
    · rw [ho] at h
      simp at h
      exact ih h
    · rw [ho] at h
      simp at h
      rw [← h]
      exact matchD3At_ne_nil ho

theorem findDateMatch_ne_nil {l g : List Nat} (h : findDateMatch l = some g) : g ≠ [] := by
  unfold findDateMatch at h
  rcases h1 : searchD1 l with _ | v
  · rw [h1] at h
    simp at h
    rcases h2 : searchD2 l with _ | w
    · rw [h2] at h
      simp at h
      exact searchD3_ne_nil h
    · rw [h2] at h
      simp at h
      rw [← h]
      exact searchD2_ne_nil h2
  · rw [h1] at h
    simp at h
    rw [← h]
    exact searchD1_ne_nil h1

/-- C6: when the matched date substring parses under none of the formats,
extract_date returns the raw matched substring verbatim; when no date
pattern matches anywhere, it returns the processing date; and it never
returns an empty string (the model is a total function, so it never
raises). -/
theorem c6_date_degradation :
    (∀ (now : PDate) (t : String) (g : List Nat),
      findDateMatch (S t) = some g → parseDateFormats g = none →
      extract_date now t = decode g) ∧
    (∀ (now : PDate) (t : String),
      findDateMatch (S t) = none →
      extract_date now t = decode (renderISO now.y now.m now.d)) ∧
    (∀ (now : PDate) (t : String), extract_date now t ≠ "") := by
  refine ⟨?_, ?_, ?_⟩
  · intro now t g h1 h2
    simp only [extract_date, extract_date_core, h1, h2]
  · intro now t h1
    simp only [extract_date, extract_date_core, h1]
  · intro now t
    rcases h1 : findDateMatch (S t) with _ | g
    · simp only [extract_date, extract_date_core, h1]
      exact decode_ne_empty (renderISO_ne_nil _ _ _)
    · simp only [extract_date, extract_date_core, h1]
      rcases h2 : parseDateFormats g with _ | ymd
      · simp only [h2]
        exact decode_ne_empty (findDateMatch_ne_nil h1)
      · rcases ymd with ⟨y, m, d⟩
        simp only [h2]
        exact decode_ne_empty (renderISO_ne_nil _ _ _)

theorem c6_date_degradation_witness :
    findDateMatch (S "Paid 99/99/99") = some (S "99/99/99") ∧
    parseDateFormats (S "99/99/99") = none ∧
    extract_date ⟨2026, 10, 12⟩ "Paid 99/99/99" = "99/99/99" ∧
    extract_date ⟨2026, 10, 12⟩ "no date here" = "2026-10-12" := by
  refine ⟨by decide, by decide, ?_, ?_⟩
  · rw [c6_date_degradation.1 ⟨2026, 10, 12⟩ "Paid 99/99/99" (S "99/99/99") (by decide)
      (by decide)]
    decide
  · rw [c6_date_degradation.2.1 ⟨2026, 10, 12⟩ "no date here" (by decide)]
    decide

/-- C5 counterexample: the text Date: Jan 5, 25 contains the date substring
Jan 5, 25, which the second pattern matches, yet extract_date returns the
raw substring Jan 5, 25, which is not a normalized ISO date (the two-digit
year parses under none of the formats: the textual formats require a
four-digit year). -/
theorem c5_counterexample :
    extract_date ⟨2025, 10, 12⟩ "Date: Jan 5, 25" = "Jan 5, 25" ∧
    isNormalizedDate (S "Jan 5, 25") = false := by
  exact ⟨by decide, by decide⟩

/-- C5 amended: extract_date takes the first match in the whole text among,
in priority order, the numeric pattern, the textual month pattern, then the
ISO pattern, and when some format of the ordered list parses the match the
first such format yields the normalized date; text containing 01/23/2026
normalizes to 2026-01-23, but Jan 5, 25 parses under no format (two-digit
years are not supported with month names) and is returned raw. -/
theorem c5_date_priority_amended :
    (∀ (now : PDate) (t : String) (g : List Nat) (y m d : Nat),
      findDateMatch (S t) = some g → parseDateFormats g = some (y, m, d) →
      extract_date now t = decode (renderISO y m d)) ∧
    (∀ now : PDate, extract_date now "Receipt 01/23/2026 store" = "2026-01-23") ∧
    (∀ now : PDate, extract_date now "Date: Jan 5, 25" = "Jan 5, 25") := by
  refine ⟨?_, ?_, ?_⟩
  · intro now t g y m d h1 h2
    simp only [extract_date, extract_date_core, h1, h2]
  · intro now
    have h1 : findDateMatch (S "Receipt 01/23/2026 store") = some (S "01/23/2026") := by
      decide
    have h2 : parseDateFormats (S "01/23/2026") = some (2026, 1, 23) := by decide
    simp only [extract_date, extract_date_core, h1, h2]
    decide
  · intro now
    have h1 : findDateMatch (S "Date: Jan 5, 25") = some (S "Jan 5, 25") := by decide
    have h2 : parseDateFormats (S "Jan 5, 25") = none := by decide
    simp only [extract_date, extract_date_core, h1, h2]
    decide

theorem c5_date_priority_amended_witness :
    findDateMatch (S "on 01/23/2026") = some (S "01/23/2026") ∧
    parseDateFormats (S "01/23/2026") = some (2026, 1, 23) ∧
    extract_date ⟨2024, 12, 31⟩ "on 01/23/2026" = decode (renderISO 2026 1 23) :=
  ⟨by decide, by decide,
   c5_date_priority_amended.1 ⟨2024, 12, 31⟩ "on 01/23/2026" (S "01/23/2026") 2026 1 23
     (by decide) (by decide)⟩

/-- C9 counterexample: extract_date depends on the processing clock, not
only on its input text and the static tables: on text with no date-like
substring it returns the current processing date, so equal inputs give
different results on different days. -/
theorem c9_counterexample :
    extract_date ⟨2025, 1, 1⟩ "no date here" ≠ extract_date ⟨2025, 1, 2⟩ "no date here" := by
  decide

/-- C9 amended: the pipeline functions are deterministic in their inputs and
the static tables, except that extract_date additionally reads the current
processing date, and only when no date pattern matches the text: whenever
some date pattern matches, extract_date is independent of the clock. -/
theorem c9_clock_independence (n1 n2 : PDate) (t : String) (g : List Nat)
    (h : findDateMatch (S t) = some g) :
    extract_date n1 t = extract_date n2 t := by
  simp only [extract_date, extract_date_core, h]

theorem c9_clock_independence_witness :
    findDateMatch (S "on 3/4/2021") = some (S "3/4/2021") ∧
    extract_date ⟨2025, 1, 1⟩ "on 3/4/2021" = extract_date ⟨1999, 12, 31⟩ "on 3/4/2021" :=
  ⟨by decide,
   c9_clock_independence ⟨2025, 1, 1⟩ ⟨1999, 12, 31⟩ "on 3/4/2021" (S "3/4/2021") (by decide)⟩

/-- C3 counterexample: a text that contains a line matching total $12.34 on
which extract_total does not return 12.34, because a keyword line further
down wins the bottom-up scan. -/
theorem c3_counterexample :
    splitOnNl (S "total $12.34\ntotal $1.00") = [S "total $12.34", S "total $1.00"] ∧
    extract_total "total $12.34\ntotal $1.00" = some 100 ∧
    (100 : Nat) ≠ 1234 := by
  refine ⟨by decide, by decide, by decide⟩

/-- C3 amended: the first line of the bottom-up scan whose lowercased,
stripped form matches one of the three patterns (tried on each line in
priority order: the explicit keyword pattern, the looser keyword pattern,
the trailing amount pattern) determines the result, with a comma decimal
separator normalized to a period; in particular a text containing the line
total $12.34 with no pattern-matching line below it yields 12.34. -/
theorem c3_total_keyword_line (t : String) (i : Nat)
    (hi : i < (splitOnNl (S t)).length)
    (hafter : ∀ l ∈ (splitOnNl (S t)).drop (i + 1), lineKeyword l = none)
    (q : Nat) (hline : lineKeyword ((splitOnNl (S t)).get ⟨i, hi⟩) = some q) :
    extract_total t = some q := by
  unfold extract_total extract_total_core
  have hdec : splitOnNl (S t) =
      (splitOnNl (S t)).take i ++
        (splitOnNl (S t)).get ⟨i, hi⟩ :: (splitOnNl (S t)).drop (i + 1) := by
    conv_lhs => rw [← List.take_append_drop i (splitOnNl (S t))]
    rw [List.drop_eq_getElem_cons hi, List.get_eq_getElem]
  have hrev : (splitOnNl (S t)).reverse =
      ((splitOnNl (S t)).drop (i + 1)).reverse ++
        (splitOnNl (S t)).get ⟨i, hi⟩ :: ((splitOnNl (S t)).take i).reverse := by
    conv_lhs => rw [hdec]
    rw [List.reverse_append, List.reverse_cons, List.append_assoc]
    rfl
  rw [hrev, List.findSome?_append]
  have hnone : (((splitOnNl (S t)).drop (i + 1)).reverse).findSome? lineKeyword = none := by
    rw [List.findSome?_eq_none_iff]
    intro x hx
    exact hafter x (List.mem_reverse.mp hx)
  rw [hnone, Option.none_or, List.findSome?_cons, hline]

theorem c3_total_keyword_line_witness :
    lineKeyword (S "total $12.34") = some 1234 ∧
    extract_total "store\ntotal $12.34\nthank you" = some 1234 := by
  constructor
  · decide
  · exact c3_total_keyword_line "store\ntotal $12.34\nthank you" 1 (by decide)
      (by decide) 1234 (by decide)

/-- C4 counterexample: a text with no keyword-labeled amount containing
5.00 dollars and 42.10 dollars for which extract_total does not return
42.10: a third, larger amount is present and the maximum wins. -/
theorem c4_counterexample :
    (∀ l ∈ splitOnNl (S "a $5.00 b\nc $42.10 d\ne $100.00 f"), lineKeyword l = none) ∧
    substrIn (S "$5.00") (S "a $5.00 b\nc $42.10 d\ne $100.00 f") = true ∧
    substrIn (S "$42.10") (S "a $5.00 b\nc $42.10 d\ne $100.00 f") = true ∧
    extract_total "a $5.00 b\nc $42.10 d\ne $100.00 f" = some 10000 ∧
    (10000 : Nat) ≠ 4210 := by
  refine ⟨by decide, by decide, by decide, by decide, by decide⟩

/-- C4 amended: when no line matches any keyword pattern, extract_total
returns the maximum of the amounts found by the left-to-right,
non-overlapping scan of the whole text with the generic two-decimal amount
pattern, and the absent value when that scan finds nothing; for a text
whose scanned amounts are 5.00 and 42.10 it returns 42.10. -/
theorem c4_total_max_fallback (t : String)
    (hk : ∀ l ∈ splitOnNl (S t), lineKeyword l = none) :
    (findAmounts (S t) = [] → extract_total t = none) ∧
    (findAmounts (S t) ≠ [] →
      ∃ q, extract_total t = some q ∧ q ∈ findAmounts (S t) ∧
        ∀ a ∈ findAmounts (S t), a ≤ q) := by
  have hnone : ((splitOnNl (S t)).reverse).findSome? lineKeyword = none := by
    rw [List.findSome?_eq_none_iff]
    intro x hx
    exact hk x (List.mem_reverse.mp hx)
  unfold extract_total extract_total_core
  rw [hnone]
  constructor
  · intro he
    rw [he]
    rfl
  · intro hne
    rcases hl : findAmounts (S t) with _ | ⟨q0, rest⟩
    · exact absurd hl hne
    · exact ⟨rest.foldl max q0, rfl, foldl_max_mem rest q0,
        fun a ha => foldl_max_le rest q0 a ha⟩

theorem c4_total_max_fallback_witness :
    findAmounts (S "a $5.00 b\nc $42.10 d") = [500, 4210] ∧
    (∃ q, extract_total "a $5.00 b\nc $42.10 d" = some q ∧
      q ∈ findAmounts (S "a $5.00 b\nc $42.10 d") ∧
      ∀ a ∈ findAmounts (S "a $5.00 b\nc $42.10 d"), a ≤ q) :=
  ⟨by decide,
   (c4_total_max_fallback "a $5.00 b\nc $42.10 d" (by decide)).2 (by decide)⟩

/-- C7 counterexample: the two directory checks of extract_vendor are
interleaved line by line, not run as two passes: the first line netflix
hits only the category directory while the second line contains the known
vendor key mcdonalds, and the category hit of the earlier line wins, so the
known vendor step does not take precedence across lines. -/
theorem c7_counterexample :
    splitOnNl (S "netflix\nmcdonalds") = [S "netflix", S "mcdonalds"] ∧
    (KNOWN_VENDOR_NAMES.map Prod.fst).contains (S "mcdonalds") = true ∧
    lineKnown (S "mcdonalds") = some "McDonalds" ∧
    extract_vendor "netflix\nmcdonalds" = "Netflix" ∧
    "Netflix" ≠ "McDonalds" := by
  refine ⟨by decide, by decide, by decide, by decide, by decide⟩

/-- C7 amended: scanning the first 10 lines in order, the first line on
which either directory check fires determines the result, the known vendor
directory being checked before the category directory on each single line
(not across lines); the category hit standardizes the stripped line
truncated to 50 codepoints; when neither check fires on the first 10 lines
and no line of the first 5 passes the fallback filter, the sentinel
Unknown Vendor is returned. -/
theorem c7_vendor_precedence :
    (∀ (t : String) (i : Nat) (hi : i < (splitOnNl (S t)).length), i < 10 →
      (∀ l ∈ (splitOnNl (S t)).take i, lineResult l = none) →
      ∀ v : String, lineKnown ((splitOnNl (S t)).get ⟨i, hi⟩) = some v →
      extract_vendor t = v) ∧
    (∀ t : String,
      (∀ l ∈ (splitOnNl (S t)).take 10, lineResult l = none) →
      (∀ l ∈ (splitOnNl (S t)).take 5, fallbackLine l = none) →
      extract_vendor t = "Unknown Vendor") := by
  constructor
  · intro t i hi h10 hprev v hv
    simp only [extract_vendor, extract_vendor_core]
    have hsplit : (splitOnNl (S t)).take 10 =
        (splitOnNl (S t)).take i ++
          ((splitOnNl (S t)).get ⟨i, hi⟩ ::
            ((splitOnNl (S t)).drop (i + 1)).take (10 - i - 1)) := by
      have h1 : (splitOnNl (S t)).take 10 =
          (splitOnNl (S t)).take i ++ ((splitOnNl (S t)).drop i).take (10 - i) := by
        rw [← List.take_add]
        congr 1
        omega
      rw [h1, List.drop_eq_getElem_cons hi]
      conv_lhs => rw [(show 10 - i = 10 - i - 1 + 1 by omega)]
      rw [List.take_succ_cons]
      simp
    rw [hsplit, List.findSome?_append]
    rw [List.findSome?_eq_none_iff.mpr hprev, Option.none_or, List.findSome?_cons]
    have hres : lineResult ((splitOnNl (S t)).get ⟨i, hi⟩) = some v := by
      unfold lineResult
      rw [hv]
      rfl
    rw [hres]
  · intro t h10 h5
    simp only [extract_vendor, extract_vendor_core]
    rw [List.findSome?_eq_none_iff.mpr h10, List.findSome?_eq_none_iff.mpr h5]

theorem c7_vendor_precedence_witness :
    lineKnown (S "welcome to mcdonalds") = some "McDonalds" ∧
    extract_vendor "welcome to mcdonalds" = "McDonalds" := by
  constructor
  · decide
  · exact c7_vendor_precedence.1 "welcome to mcdonalds" 0 (by decide) (by decide)
      (by decide) "McDonalds" (by decide)

end SpendTrackr
